import Mathlib

/-!
Verification development for the incremental Gmail synchronization engine of
the ai_email_categorizer_backend repository.  The Python source is shallowly
embedded: each Python function becomes a Lean definition of the same name,
stateful database access becomes explicit passing of a `SyncState`, raising
an exception becomes `Except Unit`, and calls into external Python libraries
(base64, quopri, BeautifulSoup, textwrap, re, the Gemini HTTP API, the Gmail
HTTP API, MongoDB connectivity) become fields of explicit environment
records (`Lib`, `Env`) that a theorem quantifies over or a witness
instantiates.
-/

namespace EmailSync

/-- Whether `pat` is an initial segment of `s` (structural recursion, so
closed instances reduce in the kernel). -/
def startsWithL : List Char → List Char → Bool
  | [], _ => true
  | _ :: _, [] => false
  | p :: ps, c :: cs => p = c && startsWithL ps cs

/-- Python `s.startswith(pat)`. -/
def startsWithPy (s pat : String) : Bool :=
  startsWithL pat.toList s.toList

/-- Whether `pat` occurs as a contiguous segment. -/
def containsL (pat : List Char) : List Char → Bool
  | [] => startsWithL pat []
  | c :: cs => startsWithL pat (c :: cs) || containsL pat cs

/-- Python `pat in s`. -/
def containsPy (s pat : String) : Bool :=
  containsL pat.toList s.toList

/-- Python `s.split(sep)` for a one-character separator, keeping empty
pieces. -/
def splitOnChar (sep : Char) : List Char → List (List Char)
  | [] => [[]]
  | c :: rest =>
    let r := splitOnChar sep rest
    if c = sep then [] :: r
    else
      match r with
      | h :: t => (c :: h) :: t
      | [] => [[c]]

/-- Python `s.split(sep)` over strings, for a one-character separator. -/
def splitOnCharPy (s : String) (sep : Char) : List String :=
  (splitOnChar sep s.toList).map String.mk

/-- Python `s.strip()`: drop whitespace from both ends. -/
def trimPy (s : String) : String :=
  String.mk (((s.toList.dropWhile Char.isWhitespace).reverse.dropWhile Char.isWhitespace).reverse)

/-- Python `s.lower()`. -/
def lowerStr (s : String) : String :=
  String.mk (s.toList.map Char.toLower)

/-- The whitespace-separated words of a string (`s.split()` in Python),
collecting the current word in reverse in `cur`. -/
def wordsAux : List Char → List Char → List String
  | [], cur => if cur.isEmpty then [] else [String.mk cur.reverse]
  | c :: cs, cur =>
    if c.isWhitespace then
      if cur.isEmpty then wordsAux cs [] else String.mk cur.reverse :: wordsAux cs []
    else wordsAux cs (c :: cur)

/-- Join with single spaces. -/
def joinSpace : List String → String
  | [] => ""
  | [w] => w
  | w :: ws => w ++ " " ++ joinSpace ws

/-- External string-processing library calls used by `app/utils/gmail_parser.py`
and `app/utils/llm_utils.py`.  Each field models one call into a Python
library whose code is outside this repository:
`b64decode` models `base64.urlsafe_b64decode(..).decode("utf-8", errors="replace")`
(`none` models the decode raising, e.g. `binascii.Error`);
`quopriDecode` models `quopri.decodestring(..).decode("utf-8", errors="replace")`;
`soupText` models the BeautifulSoup pipeline in `clean_html` (parse, drop
`script`/`style`/`meta`/`link`, `get_text`), `none` modelling the `except` branch;
`textFixes` models `html.unescape`, the latin1/utf-8 round trip, the
zero-width-character regex removal and the non-breaking-space replacement in
`clean_plain_text`;
`matchFrom` models `re.match(r'"?(.*?)"?\s*<([^>]+)>', from_header)` giving
(group 1, group 2);
`shorten` models `textwrap.shorten(text, width=w, placeholder="...")`. -/
structure Lib where
  b64decode : String → Option String
  quopriDecode : String → String
  soupText : String → Option String
  textFixes : String → String
  matchFrom : String → Option (String × String)
  shorten : String → Nat → String

/-- Python `" ".join(text.split())` followed by `.strip()`: collapse every
whitespace run to a single space and drop outer whitespace. -/
def collapseWs (s : String) : String :=
  joinSpace (wordsAux s.toList [])

/-- Python `s.strip(chars)`: remove the characters of `cs` from both ends. -/
def stripChars (cs : List Char) (s : String) : String :=
  let l := s.toList.dropWhile (fun c => cs.contains c)
  String.mk ((l.reverse.dropWhile (fun c => cs.contains c)).reverse)

/-- Python `pat in s` for a non-empty pattern. -/
def containsSub (s pat : String) : Bool :=
  containsPy s pat

/-- Embeds `decode_email_body` of `app/utils/gmail_parser.py`: empty data gives
`""`; a base64 decode failure gives the `"[Decoding Error] ..."` string (the
exception detail text is not modelled); a decoded text that looks
quoted-printable (`"=3D"` or `"=\r\n"` present) is passed through quopri. -/
def decode_email_body (lib : Lib) (data : String) : String :=
  if data = "" then ""
  else
    match lib.b64decode data with
    | none => "[Decoding Error]"
    | some t =>
      if containsSub t "=3D" || containsSub t "=\r\n" then lib.quopriDecode t else t

/-- Embeds `clean_plain_text` of `app/utils/gmail_parser.py`: empty text gives
`""`; otherwise the library fix-ups followed by whitespace normalisation and
strip. -/
def clean_plain_text (lib : Lib) (text : String) : String :=
  if text = "" then "" else collapseWs (lib.textFixes text)

/-- Embeds `clean_html` of `app/utils/gmail_parser.py`: empty content gives
`""`; a BeautifulSoup failure gives the `"[HTML parse error] ..."` string;
otherwise the extracted text is cleaned like plain text and whitespace is
collapsed once more (`re.sub(r'\s+', ' ', ..)` then `.strip()`). -/
def clean_html (lib : Lib) (htmlContent : String) : String :=
  if htmlContent = "" then ""
  else
    match lib.soupText htmlContent with
    | none => "[HTML parse error]"
    | some t => collapseWs (clean_plain_text lib t)

/-- One entry of a Gmail payload `parts` list: the `mimeType`, the
`body.data` string (`""` when absent) and the nested `parts` list (`[]` when
absent). -/
inductive MimePart : Type where
  | mk : (mimeType : String) → (bodyData : String) → (parts : List MimePart) → MimePart
deriving Repr

/-- The `mimeType` field of a part. -/
def MimePart.mimeType : MimePart → String
  | .mk m _ _ => m

/-- The `body.data` field of a part. -/
def MimePart.bodyData : MimePart → String
  | .mk _ d _ => d

/-- The nested `parts` list of a part. -/
def MimePart.subParts : MimePart → List MimePart
  | .mk _ _ p => p

/-- A Gmail message `payload`: the optional `parts` list (`none` when the
`"parts"` key is absent) and the top-level `body.data` string (`""` when
absent). -/
structure MimePayload where
  parts : Option (List MimePart)
  bodyData : String
deriving Repr

/-- Embeds the inner `find_parts` of `extract_email_body`
(`app/utils/gmail_parser.py`).  Python keeps mutable `html_content` and
`plain_content` variables while iterating; here they are the two accumulator
arguments (with `""` standing for Python `None`, which is truth-equivalent
everywhere the source inspects them).  A `text/html` part overwrites the html
accumulator, a `text/plain` part overwrites the plain accumulator, a
`multipart*` part is recursed into and its result returned early when truthy;
at the end html is preferred over plain. -/
def find_parts (lib : Lib) (htmlAcc plainAcc : String) : List MimePart → String
  | [] => if htmlAcc ≠ "" then htmlAcc else plainAcc
  | MimePart.mk mt bd sub :: rest =>
    if mt = "text/html" then
      find_parts lib (clean_html lib (decode_email_body lib bd)) plainAcc rest
    else if mt = "text/plain" then
      find_parts lib htmlAcc (clean_plain_text lib (decode_email_body lib bd)) rest
    else if startsWithPy mt "multipart" then
      let subRes := find_parts lib "" "" sub
      if subRes ≠ "" then subRes else find_parts lib htmlAcc plainAcc rest
    else
      find_parts lib htmlAcc plainAcc rest

/-- Embeds `extract_email_body` of `app/utils/gmail_parser.py`: with a
`parts` list present, the `find_parts` scan result when truthy and
`"[No content found]"` otherwise; with no `parts` key, the decoded top-level
body data is returned directly (which is `""` when the data is empty). -/
def extract_email_body (lib : Lib) (payload : MimePayload) : String :=
  match payload.parts with
  | some parts =>
    let result := find_parts lib "" "" parts
    if result ≠ "" then result else "[No content found]"
  | none => decode_email_body lib payload.bodyData

/-- Embeds the sentence-collecting loop of `get_fallback_summary`
(`app/utils/llm_utils.py`): walk the `text.split('.')` pieces, append each
stripped piece longer than 20 characters (with a `'.'` re-attached) and stop
once two have been collected.  `acc` holds the collected sentences in reverse. -/
def fallbackLoop : List String → List String → List String
  | [], acc => acc.reverse
  | s :: rest, acc =>
    if 20 < (trimPy s).length then
      let acc' := (trimPy s ++ ".") :: acc
      if 2 ≤ acc'.length then acc'.reverse else fallbackLoop rest acc'
    else fallbackLoop rest acc

/-- Embeds `get_fallback_summary` of `app/utils/llm_utils.py`: the first two
meaningful sentences, or the single `textwrap.shorten`-truncated text when no
sentence qualifies. -/
def get_fallback_summary (lib : Lib) (text : String) (maxLength : Nat := 200) : List String :=
  let summary := fallbackLoop (splitOnCharPy text '.') []
  if summary = [] then [lib.shorten text maxLength] else summary

/-- Outcome of the Gemini HTTP round trip made by `summarize_to_bullets`
(`app/utils/llm_utils.py`): `raised` models `requests.post` (or `.json()`)
raising; `response` carries the HTTP status code and the
`candidates[i].content.parts[j].text` strings of the JSON body (an absent or
empty `candidates` list models the falsy `.get("candidates")` check, an empty
parts list models the `IndexError` caught by the outer `except`). -/
inductive SummOutcome : Type where
  | raised : SummOutcome
  | response : (status : Nat) → (candidates : List (List String)) → SummOutcome
deriving Repr

/-- Embeds `summarize_to_bullets` of `app/utils/llm_utils.py` over an
explicit API outcome: every failure path returns `get_fallback_summary`;
on success the first candidate text is stripped, split into lines, the
non-blank lines are stripped of `'- '` edges and at most `maxBullets` are
kept. -/
def summarize_to_bullets (lib : Lib) (o : SummOutcome) (text : String) (maxBullets : Nat := 5) :
    List String :=
  match o with
  | .raised => get_fallback_summary lib text
  | .response status candidates =>
    if status ≠ 200 then get_fallback_summary lib text
    else
      match candidates with
      | [] => get_fallback_summary lib text
      | c :: _ =>
        match c with
        | [] => get_fallback_summary lib text
        | t :: _ =>
          let summary := trimPy t
          (((splitOnCharPy summary '\n').filter (fun l => trimPy l ≠ "")).map
            (fun l => trimPy (stripChars ['-', ' '] l))).take maxBullets

/-- Outcome of the Gemini HTTP round trip made by `classify_email`
(`src/app/services/classifier.py`), one constructor per distinct source
branch: `noKey` for the missing `GEMINI_API_KEY`, `requestError` for a
`requests.exceptions.RequestException` (including `raise_for_status`),
`parseError` for `KeyError`/`IndexError`, `otherError` for any other
exception, `emptyCandidates` for a response whose `candidates` list is
absent or empty, `ok` for a successful response text. -/
inductive ClassifyOutcome : Type where
  | noKey : ClassifyOutcome
  | requestError : String → ClassifyOutcome
  | parseError : String → ClassifyOutcome
  | otherError : String → ClassifyOutcome
  | emptyCandidates : ClassifyOutcome
  | ok : String → ClassifyOutcome
deriving Repr

/-- Embeds `classify_email` of `src/app/services/classifier.py`: it never
raises; every failure is reported as a string beginning with `"Error:"`, and
success returns the stripped response text. -/
def classify_email (o : ClassifyOutcome) : String :=
  match o with
  | .noKey => "Error: GEMINI_API_KEY not found in environment variables"
  | .requestError s => "Error: API request failed - " ++ s
  | .parseError s => "Error: Failed to parse API response - " ++ s
  | .otherError s => "Error: An unexpected error occurred - " ++ s
  | .emptyCandidates => "Error: Unexpected API response format"
  | .ok category => trimPy category

/-- One stored email document of the `emails` collection, with the fields
the embedded code reads or writes (`app/services/gmail_client.py` builds it;
`gmail_url`, `timestamp`, `fetched_at`, `internal_date`, `label_ids` and the
boolean presentation flags are carried by no embedded control flow and are
omitted). -/
structure EmailRecord where
  user_id : String
  gmail_id : String
  thread_id : Option String
  history_id : Option Nat
  subject : String
  body : String
  category : String
  summary : List String
  sender_name : Option String
  sender_email : String
deriving Repr, DecidableEq

/-- Embeds `MongoDBStorage.already_classified` of `app/db/email_db.py`:
`find_one({"gmail_id": gmail_id}) is not None` over the emails collection. -/
def already_classified (store : List EmailRecord) (gmailId : String) : Bool :=
  store.any (fun r => r.gmail_id = gmailId)

/-- Embeds `MongoDBStorage.save_email` of `app/db/email_db.py` with
`force_regenerate_summary = False` callers in scope.  The `gmail_id`
presence check is vacuous here because the record type always carries one;
the `user_id` must be a string that is non-empty after stripping, and is
stored stripped (mutating the caller's dict, hence the mutated record is
returned).  An existing record with the same `gmail_id` makes the call a
no-op returning `false` (when forcing, its summary is regenerated instead
and `true` returned). -/
def save_email (lib : Lib) (summOf : String → SummOutcome) (store : List EmailRecord)
    (e : EmailRecord) (force : Bool := false) : Bool × EmailRecord × List EmailRecord :=
  if trimPy e.user_id = "" then (false, e, store)
  else
    let e' := { e with user_id := trimPy e.user_id }
    if already_classified store e'.gmail_id then
      if force then
        let newSummary := summarize_to_bullets lib (summOf e'.body) e'.body
        (true, e',
          store.map (fun r => if r.gmail_id = e'.gmail_id then { r with summary := newSummary } else r))
      else (false, e', store)
    else (true, e', e' :: store)

/-- A Gmail message as returned by `messages().get(format='full')`, with the
fields the embedded code reads.  History ids are transported as strings but
ordered and compared as unsigned integers by the source (`int(..)`), so they
are carried as `Nat` here.  The `internalDate` / `Date`-header timestamp
computation of `process_and_save_gmail_message` feeds no embedded control
flow and is omitted. -/
structure GmailMsg where
  id : String
  threadId : Option String
  historyId : Option Nat
  headers : List (String × String)
  payload : MimePayload
deriving Repr

/-- Python `next((h['value'] for h in headers if h['name'].lower() == name), default)`. -/
def findHeader (headers : List (String × String)) (name : String) : Option String :=
  (headers.find? (fun h => lowerStr h.1 = name)).map (fun h => h.2)

/-- Embeds the `From`-header parsing of `process_and_save_gmail_message`
(`app/services/gmail_client.py`): on a regex match, group 1 stripped (or
`None` when empty) is the sender name and group 2 stripped the address;
otherwise the stripped raw header is the address (the `'@' in from_header`
branch and its `else` are identical in the source). -/
def parseFrom (lib : Lib) (fromHeader : String) : Option String × String :=
  match lib.matchFrom fromHeader with
  | some (name, addr) =>
    ((if trimPy name = "" then none else some (trimPy name)), trimPy addr)
  | none => (none, trimPy fromHeader)

/-- One record of a `users().history().list` response: the ids of its
`messagesAdded[i].message` entries. -/
structure HistRecord where
  messagesAdded : List String
deriving Repr

/-- A `users().history().list` response: the optional top-level `historyId`
(the provider's current watermark) and the `history` record list (`[]` when
the key is absent). -/
structure HistResponse where
  historyId : Option Nat
  history : List HistRecord
deriving Repr

/-- Per-call outcomes of the external services consulted while syncing one
user, plus the MongoDB cursor-read availability.  `serviceOk` models
`get_gmail_service_for_user` succeeding; `historyList` models
`users().history().list(..).execute()` (`Except.error` = the call raising,
e.g. an HTTP 404 for a history id the provider no longer retains);
`getMessage` models `users().messages().get(..).execute()` per message id;
`listMessages` models `users().messages().list(..).execute()` returning the
listed message ids for a given `maxResults`; `profileHistoryId` models
`users().getProfile(..)` (`none` covers both the call raising and the field
being absent, which the source conflates into returning `None`);
`classify`/`summarize` give the Gemini outcome for a (subject, body) or body;
`cursorReadOk` models whether the MongoDB read in `get_user_history_id`
succeeds (`app/db/base.py` does not catch its exceptions);
`resolveUser` models `get_user_id_by_email` (which catches its own DB errors
into `None`). -/
structure Env where
  serviceOk : Bool
  historyList : Except Unit HistResponse
  getMessage : String → Except Unit GmailMsg
  listMessages : Nat → Except Unit (List String)
  profileHistoryId : Option Nat
  classify : String → String → ClassifyOutcome
  summarize : String → SummOutcome
  cursorReadOk : Bool
  resolveUser : String → Option String
  lib : Lib

/-- The per-user mutable database state the sync engine touches: the stored
watermark `last_history_id` of the `users` collection, the `emails`
collection, and two instrumentation fields recording every watermark write
and counting every watermark read (the source has no such fields; they
observe which invocation touched the cursor). -/
structure SyncState where
  lastHistoryId : Option Nat
  emails : List EmailRecord
  cursorWrites : List Nat
  cursorReads : Nat
deriving Repr

/-- Embeds `set_user_history_id` of `app/db/base.py`: an unconditional
`update_one .. {"$set": {"last_history_id": history_id}}`. -/
def set_user_history_id (s : SyncState) (historyId : Nat) : SyncState :=
  { s with lastHistoryId := some historyId, cursorWrites := s.cursorWrites ++ [historyId] }

/-- Embeds `get_user_history_id` of `app/db/base.py`: a MongoDB read with no
exception handling, so an unavailable database makes the call raise. -/
def get_user_history_id (env : Env) (s : SyncState) : Except Unit (Option Nat) × SyncState :=
  if env.cursorReadOk then (Except.ok s.lastHistoryId, { s with cursorReads := s.cursorReads + 1 })
  else (Except.error (), { s with cursorReads := s.cursorReads + 1 })

/-- Embeds `process_and_save_gmail_message` of `app/services/gmail_client.py`:
parse headers and body, skip an already-classified gmail id, summarize (with
internal fallback), classify, drop the message when the category reports an
error, otherwise persist via `save_email`.  Returns the saved record (`none`
on duplicate, classification error, or failed save) together with the email
store. -/
def process_and_save_gmail_message (env : Env) (msg : GmailMsg) (userId : String)
    (store : List EmailRecord) : Option EmailRecord × List EmailRecord :=
  let subject := (findHeader msg.headers "subject").getD "(No Subject)"
  let fromHeader := (findHeader msg.headers "from").getD ""
  let senders := parseFrom env.lib fromHeader
  let body := extract_email_body env.lib msg.payload
  let gmailId := msg.id
  if already_classified store gmailId then (none, store)
  else
    let summary := summarize_to_bullets env.lib (env.summarize body) body
    let category := classify_email (env.classify subject body)
    if startsWithPy category "Error:" then (none, store)
    else
      let emailData : EmailRecord :=
        { user_id := userId
          gmail_id := gmailId
          thread_id := msg.threadId
          history_id := msg.historyId
          subject := subject
          body := body
          category := category
          summary := summary
          sender_name := senders.1
          sender_email := senders.2 }
      match save_email env.lib env.summarize store emailData with
      | (true, saved, store') => (some saved, store')
      | (false, _, store') => (none, store')

/-- Embeds the per-message loop of `get_incremental_emails`
(`app/services/gmail_client.py`, lines 185-198): each id is fetched and
processed inside its own `try`, an exception is logged and the loop
`continue`s, and only truthy (saved) results are collected. -/
def incLoop (env : Env) (userId : String) : List String → SyncState → List EmailRecord × SyncState
  | [], s => ([], s)
  | msgId :: rest, s =>
    match env.getMessage msgId with
    | .error _ => incLoop env userId rest s
    | .ok msg =>
      let r := process_and_save_gmail_message env msg userId s.emails
      let s' := { s with emails := r.2 }
      let t := incLoop env userId rest s'
      (match r.1 with | some e => e :: t.1 | none => t.1, t.2)

/-- Embeds `get_incremental_emails` of `app/services/gmail_client.py`: list
the history since `lastHistoryId`; on any exception (service construction or
the history call raising, e.g. a too-old cursor rejected by the provider)
return `[]` leaving the state untouched; otherwise process every added
message id (individual failures skipped) and afterwards store the response's
`historyId` as the new cursor whenever the response carried one.  The
`lastHistoryId` argument is forwarded to the provider call and affects the
embedded control flow in no other way. -/
def get_incremental_emails (env : Env) (userId : String) (lastHistoryId : Nat) (s : SyncState) :
    List EmailRecord × SyncState :=
  if ¬ env.serviceOk then ([], s)
  else
    match env.historyList with
    | .error _ => ([], s)
    | .ok resp =>
      let currentHistoryId := resp.historyId
      if resp.history.isEmpty then
        ([], match currentHistoryId with | some h => set_user_history_id s h | none => s)
      else
        let messages := (resp.history.map (fun r => r.messagesAdded)).flatten
        if messages.isEmpty then
          ([], match currentHistoryId with | some h => set_user_history_id s h | none => s)
        else
          let r := incLoop env userId messages s
          (r.1, match currentHistoryId with | some h => set_user_history_id r.2 h | none => r.2)

/-- Embeds the full-fetch loop of `get_latest_emails`
(`app/services/gmail_client.py`): unlike the incremental loop, the
per-message fetch is not individually guarded, so one raising fetch aborts
the whole call (the outer `except` then discards the collected results but
keeps the store writes already made). -/
def fullLoop (env : Env) (userId : String) : List String → SyncState →
    Except Unit (List EmailRecord) × SyncState
  | [], s => (.ok [], s)
  | msgId :: rest, s =>
    match env.getMessage msgId with
    | .error _ => (.error (), s)
    | .ok msg =>
      let r := process_and_save_gmail_message env msg userId s.emails
      let s' := { s with emails := r.2 }
      match fullLoop env userId rest s' with
      | (.error _, s'') => (.error (), s'')
      | (.ok t, s'') => (.ok (match r.1 with | some e => e :: t | none => t), s'')

/-- Embeds `get_latest_emails` of `app/services/gmail_client.py`: with a
last history id, delegate to the incremental sync; otherwise list up to
`maxResults` unread messages and process them, returning `[]` (with the
store writes made so far kept) when anything raises. -/
def get_latest_emails (env : Env) (userId : String) (maxResults : Nat)
    (lastHistoryId : Option Nat) (s : SyncState) : List EmailRecord × SyncState :=
  match lastHistoryId with
  | some l => get_incremental_emails env userId l s
  | none =>
    if ¬ env.serviceOk then ([], s)
    else
      match env.listMessages maxResults with
      | .error _ => ([], s)
      | .ok ids =>
        if ids.isEmpty then ([], s)
        else
          match fullLoop env userId ids s with
          | (.error _, s') => ([], s')
          | (.ok emails, s') => (emails, s')

/-- Embeds `get_current_history_id` of `app/services/gmail_client.py`:
`users().getProfile(..).get("historyId")`, with any exception caught into
`None`. -/
def get_current_history_id (env : Env) : Option Nat :=
  if ¬ env.serviceOk then none else env.profileHistoryId

/-- Embeds `handle_history_id_too_old` of `app/services/gmail_client.py`:
fetch the provider's current watermark (aborting with `[]` when
unavailable), run a full fetch of the 50 most recent messages, then store
the current watermark as the cursor regardless of the old one. -/
def handle_history_id_too_old (env : Env) (userId : String) (oldHistoryId : Nat)
    (s : SyncState) : List EmailRecord × SyncState :=
  match get_current_history_id env with
  | none => ([], s)
  | some currentHistoryId =>
    let r := get_latest_emails env userId 50 none s
    (r.1, set_user_history_id r.2 currentHistoryId)

/-- Embeds the counting loop of `fetch_and_process_new_emails`
(`app/services/email_ingestion.py`): each email returned by
`get_latest_emails` is re-classified and re-summarized, and when both values
are truthy it is saved again (a duplicate no-op) and counted, while the
largest `history_id` seen is tracked. -/
def ingestLoop (env : Env) (userId : String) :
    List EmailRecord → Nat → Option Nat → SyncState → Nat × Option Nat × SyncState
  | [], count, newHid, s => (count, newHid, s)
  | e :: rest, count, newHid, s =>
    let category := classify_email (env.classify e.subject e.body)
    let summary := summarize_to_bullets env.lib (env.summarize e.body) e.body
    if summary ≠ [] ∧ category ≠ "" then
      let saved := save_email env.lib env.summarize s.emails
        { e with user_id := userId, category := category, summary := summary }
      let s' := { s with emails := saved.2.2 }
      let newHid' := match e.history_id with
        | some h => match newHid with
          | none => some h
          | some cur => if cur < h then some h else some cur
        | none => newHid
      ingestLoop env userId rest (count + 1) newHid' s'
    else ingestLoop env userId rest count newHid s

/-- Embeds `fetch_and_process_new_emails` of `app/services/email_ingestion.py`:
read the stored cursor (raising when the database read fails), fetch via
`get_latest_emails`, re-process each returned email, and store the largest
`history_id` seen (if any) as the new cursor. -/
def fetch_and_process_new_emails (env : Env) (userId : String) (maxResults : Nat := 10)
    (s : SyncState) : Except Unit Nat × SyncState :=
  match get_user_history_id env s with
  | (.error _, s') => (.error (), s')
  | (.ok lastHistoryId, s') =>
    let r := get_latest_emails env userId maxResults lastHistoryId s'
    let t := ingestLoop env userId r.1 0 none r.2
    match t.2.1 with
    | some newHid => (.ok t.1, set_user_history_id t.2.2 newHid)
    | none => (.ok t.1, t.2.2)

/-- The notification fields `gmail_push_webhook` (`app/routers/webhook.py`)
reads from a decoded payload: `emailAddress` and `historyId` (transported as
a string, ordered as an unsigned integer, hence `Nat`). -/
structure WebhookData where
  emailAddress : Option String
  historyId : Option Nat
deriving Repr

/-- An inbound webhook request as `gmail_push_webhook` decodes it:
`jsonOk` models `request.json()` succeeding; `envelope` models
`data.get("message", {}).get("data")` (`none` = no Pub/Sub envelope,
`some none` = the base64/JSON decode of the envelope raising,
`some (some d)` = the decoded notification); `direct` is the outer JSON body
viewed as a notification (used when there is no envelope, and as the last
fallback for the email address); `channelToken` is the
`X-Goog-Channel-Token` header. -/
structure WebhookRequest where
  jsonOk : Bool
  envelope : Option (Option WebhookData)
  direct : WebhookData
  channelToken : Option String
deriving Repr

/-- A webhook response body: the success acknowledgement or an error object. -/
inductive RespBody : Type where
  | success : (processed : Nat) → RespBody
  | error : (msg : String) → RespBody
deriving Repr, DecidableEq

/-- The observable outcome of one `gmail_push_webhook` call: an explicit
`JSONResponse` with its status code, or an exception escaping the handler
(which the framework surfaces as a 500 with no `{"error": ..}` body). -/
inductive WebhookResult : Type where
  | json : (status : Nat) → (body : RespBody) → WebhookResult
  | raised : WebhookResult
deriving Repr, DecidableEq

/-- Embeds the per-message loop of the webhook's history branch
(`app/routers/webhook.py`, lines 125-141): each id is fetched and processed
inside its own `try`, failures are logged and skipped, and truthy results
are counted. -/
def webhookLoop (env : Env) (userId : String) :
    List String → Nat → SyncState → Nat × SyncState
  | [], count, s => (count, s)
  | msgId :: rest, count, s =>
    match env.getMessage msgId with
    | .error _ => webhookLoop env userId rest count s
    | .ok msg =>
      let r := process_and_save_gmail_message env msg userId s.emails
      let s' := { s with emails := r.2 }
      match r.1 with
      | some _ => webhookLoop env userId rest (count + 1) s'
      | none => webhookLoop env userId rest count s'

/-- Embeds the `try` block of `gmail_push_webhook` that runs when the
notification carries a `historyId` (`app/routers/webhook.py`, lines 81-154).
With a stored cursor: list history since it (`maxResults=10`), process the
added messages (individual failures skipped), store the response `historyId`
when present, and otherwise fall back to storing the notification's
`historyId`.  With no stored cursor: run the regular sync, after which the
read of the unassigned `current_history_id` raises `UnboundLocalError`
inside the `try` (so this path always ends in the `except` branch, keeping
the regular sync's state changes).  Any raise is surfaced as `Except.error`
for the caller's `except` branch. -/
def webhookSyncBody (env : Env) (userId : String) (webhookHistoryId : Nat) (s : SyncState) :
    Except Unit Nat × SyncState :=
  if ¬ env.serviceOk then (.error (), s)
  else
    match get_user_history_id env s with
    | (.error _, s') => (.error (), s')
    | (.ok lastOpt, s') =>
      match lastOpt with
      | some _ =>
        match env.historyList with
        | .error _ => (.error (), s')
        | .ok resp =>
          let currentHistoryId := resp.historyId
          let afterRecords :=
            if resp.history.isEmpty then
              (0, match currentHistoryId with | some h => set_user_history_id s' h | none => s')
            else
              let ids := (resp.history.map (fun r => r.messagesAdded)).flatten
              let r := webhookLoop env userId ids 0 s'
              (r.1, match currentHistoryId with | some h => set_user_history_id r.2 h | none => r.2)
          match currentHistoryId with
          | some _ => (.ok afterRecords.1, afterRecords.2)
          | none => (.ok afterRecords.1, set_user_history_id afterRecords.2 webhookHistoryId)
      | none =>
        let r := fetch_and_process_new_emails env userId 10 s'
        (.error (), r.2)

/-- The `webhook_data` the handler works with: the decoded envelope when a
Pub/Sub envelope is present (`none` when its decode raises, which the
handler rejects), the outer JSON body otherwise. -/
def decodedData (req : WebhookRequest) : Option WebhookData :=
  match req.envelope with
  | none => some req.direct
  | some none => none
  | some (some d) => some d

/-- The email-address resolution chain of the handler:
`webhook_data.get("emailAddress")`, then the `X-Goog-Channel-Token` header,
then the outer body's `emailAddress`. -/
def resolvedEmail (req : WebhookRequest) (d : WebhookData) : Option String :=
  match d.emailAddress with
  | some e => some e
  | none =>
    match req.channelToken with
    | some t => some t
    | none => req.direct.emailAddress

/-- Embeds `gmail_push_webhook` of `app/routers/webhook.py`: decode the
payload (rejecting bad JSON, a bad Pub/Sub envelope, a missing email
address, an unknown user with explicit error responses), then sync.  A
notification with a `historyId` runs `webhookSyncBody`, falling back to the
regular sync when it raises; a notification without one runs the regular
sync directly.  The regular-sync fallbacks are not themselves guarded, so
their raising escapes the handler (`WebhookResult.raised`). -/
def gmail_push_webhook (env : Env) (req : WebhookRequest) (s : SyncState) :
    WebhookResult × SyncState :=
  if ¬ req.jsonOk then (.json 400 (.error "Invalid JSON payload"), s)
  else
    match decodedData req with
    | none => (.json 400 (.error "Failed to decode Pub/Sub message"), s)
    | some webhookData =>
      match resolvedEmail req webhookData with
      | none => (.json 400 (.error "No email address found"), s)
      | some email =>
        match env.resolveUser email with
        | none => (.json 404 (.error "User not found"), s)
        | some userId =>
          match webhookData.historyId with
          | some whid =>
            match webhookSyncBody env userId whid s with
            | (.ok n, s') => (.json 200 (.success n), s')
            | (.error _, s') =>
              match fetch_and_process_new_emails env userId 10 s' with
              | (.ok n, s'') => (.json 200 (.success n), s'')
              | (.error _, s'') => (.raised, s'')
          | none =>
            match fetch_and_process_new_emails env userId 10 s with
            | (.ok n, s') => (.json 200 (.success n), s')
            | (.error _, s') => (.raised, s')

/-- A concrete library instance for closed evaluations: base64 decoding is
the identity (every string "decodes" to itself), BeautifulSoup extraction is
the identity, the `From` regex never matches, truncation is the identity. -/
def trivLib : Lib where
  b64decode := fun s => some s
  quopriDecode := fun s => s
  soupText := fun s => some s
  textFixes := fun s => s
  matchFrom := fun _ => none
  shorten := fun t _ => t

/-- A concrete well-formed Gmail message used by witnesses and
counterexamples. -/
def mkMsg (i : String) (hid : Nat) : GmailMsg where
  id := i
  threadId := some "t1"
  historyId := some hid
  headers := [("Subject", "Hello"), ("From", "alice@example.com")]
  payload := { parts := none, bodyData := "greetings" }

/-- A concrete environment: a healthy provider whose history delta since the
cursor reports watermark 200 and one record adding messages m1, m2, m3, of
which fetching m2 raises; classification always succeeds with "Newsletter";
summarization always falls back. -/
def baseEnv : Env where
  serviceOk := true
  historyList := .ok { historyId := some 200, history := [⟨["m1", "m2", "m3"]⟩] }
  getMessage := fun i => if i = "m2" then .error () else .ok (mkMsg i 150)
  listMessages := fun _ => .ok []
  profileHistoryId := some 300
  classify := fun _ _ => .ok "Newsletter"
  summarize := fun _ => .raised
  cursorReadOk := true
  resolveUser := fun _ => some "u1"
  lib := trivLib

/-- A concrete starting state: stored cursor 100, empty email store. -/
def s100 : SyncState where
  lastHistoryId := some 100
  emails := []
  cursorWrites := []
  cursorReads := 0

/-- The watermark value a `get_incremental_emails` call against `env` will
store, if any: the response's `historyId` when the service and the history
call succeed. -/
def reportedWrite (env : Env) : Option Nat :=
  if env.serviceOk then
    match env.historyList with
    | .ok r => r.historyId
    | .error _ => none
  else none

/-- The per-message loop of the incremental sync only touches the email
store: the cursor and the instrumentation fields pass through unchanged. -/
theorem incLoop_state_fields (env : Env) (uid : String) :
    ∀ ids s, ((incLoop env uid ids s).2.lastHistoryId = s.lastHistoryId) ∧
      ((incLoop env uid ids s).2.cursorWrites = s.cursorWrites) ∧
      ((incLoop env uid ids s).2.cursorReads = s.cursorReads)
  | [], s => by simp [incLoop]
  | msgId :: rest, s => by
    cases h : env.getMessage msgId with
    | error e => simpa [incLoop, h] using incLoop_state_fields env uid rest s
    | ok msg => simpa [incLoop, h] using incLoop_state_fields env uid rest _

/-- The cursor after one `get_incremental_emails` call is the reported
watermark when there is one and the old cursor otherwise, independently of
every per-message outcome. -/
theorem get_incremental_emails_cursor (env : Env) (uid : String) (l : Nat) (s : SyncState) :
    (get_incremental_emails env uid l s).2.lastHistoryId =
      match reportedWrite env with
      | some h => some h
      | none => s.lastHistoryId := by
  unfold get_incremental_emails reportedWrite
  by_cases hs : env.serviceOk
  · cases hl : env.historyList with
    | error e => simp [hs, hl]
    | ok resp =>
      cases hh : resp.historyId with
      | none =>
        by_cases h1 : resp.history.isEmpty <;>
          by_cases h2 : ((resp.history.map (fun r => r.messagesAdded)).flatten).isEmpty <;>
            simp [hs, hl, hh, h1, h2, (incLoop_state_fields env uid _ s).1]
      | some h =>
        by_cases h1 : resp.history.isEmpty <;>
          by_cases h2 : ((resp.history.map (fun r => r.messagesAdded)).flatten).isEmpty <;>
            simp [hs, hl, hh, h1, h2, set_user_history_id]
  · simp [hs]

/-- C1 (corrected, counterexample): a sync batch of three message ids in
which fetching m2 raises still processes the other two and advances the
stored cursor from 100 to the provider-reported 200 — the cursor after
`Sync` does not equal the cursor before, so the failed message is not
re-attempted. -/
theorem C1_counterexample :
    baseEnv.getMessage "m2" = .error () ∧
    (get_incremental_emails baseEnv "u1" 100 s100).1.length = 2 ∧
    s100.lastHistoryId = some 100 ∧
    (get_incremental_emails baseEnv "u1" 100 s100).2.lastHistoryId = some 200 := by
  refine ⟨rfl, by decide, by decide, by decide⟩

/-- C1 (amended): when the history call succeeds and its response carries a
watermark, `get_incremental_emails` ends with the cursor set to that
watermark regardless of how many individual messages failed — per-message
errors are logged and skipped, and the batch is not re-attempted. -/
theorem C1_cursor_advances_despite_failures (env : Env) (uid : String) (l : Nat)
    (s : SyncState) (resp : HistResponse) (h : Nat)
    (hs : env.serviceOk = true) (hl : env.historyList = .ok resp)
    (hh : resp.historyId = some h) :
    (get_incremental_emails env uid l s).2.lastHistoryId = some h := by
  rw [get_incremental_emails_cursor]
  simp [reportedWrite, hs, hl, hh]

/-- C1 witness: the amended theorem applied to the three-message batch with
one failing fetch. -/
theorem C1_witness :
    baseEnv.serviceOk = true ∧
    (get_incremental_emails baseEnv "u1" 100 s100).2.lastHistoryId = some 200 :=
  ⟨rfl, C1_cursor_advances_despite_failures baseEnv "u1" 100 s100
    ⟨some 200, [⟨["m1", "m2", "m3"]⟩]⟩ 200 rfl rfl rfl⟩

/-- A provider environment whose history delta reports watermark 50,
older than the stored cursor 100. -/
def env50 : Env :=
  { baseEnv with historyList := .ok { historyId := some 50, history := [] } }

/-- C2 (corrected, counterexample): a successful `Sync` call (no error, no
messages) against a provider reporting watermark 50 overwrites the stored
cursor 100 with 50 — the stored watermark decreases, because
`set_user_history_id` is an unconditional overwrite with no comparison. -/
theorem C2_counterexample :
    s100.lastHistoryId = some 100 ∧
    (get_incremental_emails env50 "u1" 100 s100).1 = [] ∧
    (get_incremental_emails env50 "u1" 100 s100).2.lastHistoryId = some 50 ∧
    (50 : Nat) < 100 := by
  refine ⟨by decide, by decide, by decide, by decide⟩

/-- The hypothesis under which the stored cursor is monotone: every
watermark the provider reports across a sequence of sync calls is at least
the previously reported one (and at least the starting cursor). -/
def ReportedChain : Nat → List Env → Prop
  | _, [] => True
  | c, e :: rest =>
    match reportedWrite e with
    | none => ReportedChain c rest
    | some h => c ≤ h ∧ ReportedChain h rest

/-- A sequence of `get_incremental_emails` calls, each started from the
cursor stored by its predecessors (as the webhook-driven sync does). -/
def runIncSyncs (uid : String) : List Env → SyncState → SyncState
  | [], s => s
  | e :: rest, s => runIncSyncs uid rest (get_incremental_emails e uid (s.lastHistoryId.getD 0) s).2

/-- C2 (amended): across any sequence of sync calls the stored watermark is
non-decreasing provided the provider-reported watermarks form a
non-decreasing chain above the starting cursor; the store itself enforces
nothing (see the counterexample). -/
theorem C2_cursor_monotone_under_monotone_provider (uid : String) :
    ∀ (envs : List Env) (c : Nat) (s : SyncState),
      s.lastHistoryId = some c → ReportedChain c envs →
      ∃ c', (runIncSyncs uid envs s).lastHistoryId = some c' ∧ c ≤ c'
  | [], c, s, hs, _ => ⟨c, by simpa [runIncSyncs] using hs, le_refl c⟩
  | e :: rest, c, s, hs, hchain => by
    cases hr : reportedWrite e with
    | none =>
      have hcur : (get_incremental_emails e uid (s.lastHistoryId.getD 0) s).2.lastHistoryId
          = some c := by
        rw [get_incremental_emails_cursor, hr, hs]
      have hchain' : ReportedChain c rest := by
        have := hchain
        simp only [ReportedChain, hr] at this
        exact this
      obtain ⟨c', hc', hle⟩ :=
        C2_cursor_monotone_under_monotone_provider uid rest c _ hcur hchain'
      exact ⟨c', by simpa [runIncSyncs] using hc', hle⟩
    | some h =>
      have hcur : (get_incremental_emails e uid (s.lastHistoryId.getD 0) s).2.lastHistoryId
          = some h := by
        rw [get_incremental_emails_cursor, hr]
      have hchain' : c ≤ h ∧ ReportedChain h rest := by
        have := hchain
        simp only [ReportedChain, hr] at this
        exact this
      obtain ⟨c', hc', hle⟩ :=
        C2_cursor_monotone_under_monotone_provider uid rest h _ hcur hchain'.2
      exact ⟨c', by simpa [runIncSyncs] using hc', le_trans hchain'.1 hle⟩

/-- C2 witness: the amended theorem applied to a one-call sequence whose
provider reports 200 above the stored 100. -/
theorem C2_witness :
    s100.lastHistoryId = some 100 ∧ ReportedChain 100 [baseEnv] ∧
    ∃ c', (runIncSyncs "u1" [baseEnv] s100).lastHistoryId = some c' ∧ 100 ≤ c' := by
  have hchain : ReportedChain 100 [baseEnv] := by
    simp only [ReportedChain, reportedWrite, baseEnv]
    exact ⟨by norm_num, trivial⟩
  exact ⟨rfl, hchain,
    C2_cursor_monotone_under_monotone_provider "u1" [baseEnv] 100 s100 rfl hchain⟩

/-- A provider environment that rejects the supplied cursor as too old: the
history call raises (Gmail answers HTTP 404), while the profile reports
current watermark 300. -/
def envStale : Env :=
  { baseEnv with historyList := .error () }

/-- C3 (corrected, counterexample): when the incremental fetch is rejected
because the cursor is too old, `get_incremental_emails` swallows the
exception and returns `[]` with the state — cursor and email store —
completely unchanged: no full fetch happens and the cursor stays 100 even
though the provider's current watermark is 300.  (`handle_history_id_too_old`
would recover, but no sync path calls it.) -/
theorem C3_counterexample :
    get_current_history_id envStale = some 300 ∧
    get_incremental_emails envStale "u1" 100 s100 = ([], s100) ∧
    s100.lastHistoryId = some 100 := ⟨rfl, rfl, rfl⟩

/-- C3 (amended): the recovery function `handle_history_id_too_old` itself
does end with the cursor set to the provider's current watermark, regardless
of the old cursor's value and of every per-message outcome of the full
fetch. -/
theorem C3_full_resync_sets_fresh_cursor (env : Env) (uid : String) (old : Nat)
    (s : SyncState) (h : Nat) (hcur : get_current_history_id env = some h) :
    (handle_history_id_too_old env uid old s).2.lastHistoryId = some h := by
  unfold handle_history_id_too_old
  rw [hcur]
  simp [set_user_history_id]

/-- C3 witness: the amended theorem applied to the healthy provider. -/
theorem C3_witness :
    get_current_history_id baseEnv = some 300 ∧
    (handle_history_id_too_old baseEnv "u1" 100 s100).2.lastHistoryId = some 300 :=
  ⟨rfl, C3_full_resync_sets_fresh_cursor baseEnv "u1" 100 s100 300 rfl⟩

/-- A message whose gmail id is already stored is skipped without touching
the store. -/
theorem process_duplicate_skipped (env : Env) (msg : GmailMsg) (uid : String)
    (store : List EmailRecord) (h : already_classified store msg.id = true) :
    process_and_save_gmail_message env msg uid store = (none, store) := by
  simp [process_and_save_gmail_message, h]

/-- Shape of a successful first processing: the gmail id was absent and the
saved record, carrying that gmail id, was prepended to the store. -/
theorem process_success_shape (env : Env) (msg : GmailMsg) (uid : String)
    (store : List EmailRecord) (r : EmailRecord) (store' : List EmailRecord)
    (h : process_and_save_gmail_message env msg uid store = (some r, store')) :
    already_classified store msg.id = false ∧ r.gmail_id = msg.id ∧ store' = r :: store := by
  simp only [process_and_save_gmail_message] at h
  split at h
  · simp at h
  next h1 =>
    split at h
    · simp at h
    next h2 =>
      split at h
      next saved st' heq =>
        simp only [save_email] at heq
        split at heq
        · simp at heq
        next hu =>
          obtain ⟨hsaved, hst⟩ := by simpa using heq
          obtain ⟨hr, hst'⟩ := by simpa using h
          refine ⟨by simpa using h1, ?_, ?_⟩
          · rw [← hr, ← hsaved]
          · rw [← hst', ← hst, ← hr, ← hsaved]
      next heq => simp at h

/-- C4 (confirmed): after a first successful processing of a message,
processing it again returns the skipped outcome (`none`) with the store
unchanged, and the store holds exactly one record keyed by that gmail id. -/
theorem C4_process_idempotent (env : Env) (msg : GmailMsg) (uid : String)
    (store : List EmailRecord) (r : EmailRecord) (store' : List EmailRecord)
    (hfirst : process_and_save_gmail_message env msg uid store = (some r, store')) :
    process_and_save_gmail_message env msg uid store' = (none, store') ∧
    (store'.filter (fun e => e.gmail_id = msg.id)).length = 1 := by
  obtain ⟨habs, hid, hcons⟩ := process_success_shape env msg uid store r store' hfirst
  have hdup : already_classified store' msg.id = true := by
    subst hcons
    simp [already_classified, hid]
  refine ⟨process_duplicate_skipped env msg uid store' hdup, ?_⟩
  subst hcons
  have hmem : ∀ x ∈ store, ¬ (x.gmail_id = msg.id) := by
    have h2 := habs
    simp [already_classified, List.any_eq_false] at h2
    exact h2
  have hnone : store.filter (fun e => e.gmail_id = msg.id) = [] := by
    rw [List.filter_eq_nil_iff]
    intro a ha
    simpa using hmem a ha
  simp [List.filter_cons, hid, hnone]

/-- The concrete record produced by processing message m1 in `baseEnv`. -/
def recM1 : EmailRecord where
  user_id := "u1"
  gmail_id := "m1"
  thread_id := some "t1"
  history_id := some 150
  subject := "Hello"
  body := "greetings"
  category := "Newsletter"
  summary := ["greetings"]
  sender_name := none
  sender_email := "alice@example.com"

/-- C4 witness: the idempotence theorem applied to a concrete first
processing of m1 into an empty store. -/
theorem C4_witness :
    process_and_save_gmail_message baseEnv (mkMsg "m1" 150) "u1" [] = (some recM1, [recM1]) ∧
    process_and_save_gmail_message baseEnv (mkMsg "m1" 150) "u1" [recM1] = (none, [recM1]) ∧
    ([recM1].filter (fun e => e.gmail_id = (mkMsg "m1" 150).id)).length = 1 := by
  refine ⟨by decide, ?_⟩
  exact C4_process_idempotent baseEnv (mkMsg "m1" 150) "u1" [] recM1 [recM1] (by decide)

/-- The cursor-write log after one `get_incremental_emails` call: one write
of the reported watermark when there is one, and no write at all otherwise. -/
theorem get_incremental_emails_writes (env : Env) (uid : String) (l : Nat) (s : SyncState) :
    (get_incremental_emails env uid l s).2.cursorWrites =
      match reportedWrite env with
      | some h => s.cursorWrites ++ [h]
      | none => s.cursorWrites := by
  unfold get_incremental_emails reportedWrite
  by_cases hs : env.serviceOk
  · cases hl : env.historyList with
    | error e => simp [hs, hl]
    | ok resp =>
      cases hh : resp.historyId with
      | none =>
        by_cases h1 : resp.history.isEmpty <;>
          by_cases h2 : ((resp.history.map (fun r => r.messagesAdded)).flatten).isEmpty <;>
            simp [hs, hl, hh, h1, h2, (incLoop_state_fields env uid _ s).2.1]
      | some h =>
        by_cases h1 : resp.history.isEmpty <;>
          by_cases h2 : ((resp.history.map (fun r => r.messagesAdded)).flatten).isEmpty <;>
            simp [hs, hl, hh, h1, h2, set_user_history_id,
              (incLoop_state_fields env uid _ s).2.1]
  · simp [hs]

/-- A provider whose delta response carries history records but no
`historyId` watermark field; its profile still reports 300. -/
def envNoWatermark : Env :=
  { baseEnv with historyList := .ok { historyId := none, history := [⟨["m1"]⟩] } }

/-- C5 (corrected, counterexample): a delta response with no new-cursor
field is not treated as CursorTooOld: the message is processed, no cursor
write happens, and the stale stored cursor 100 is silently kept even though
the provider's current watermark is 300 (a full resync would have stored
it). -/
theorem C5_counterexample :
    (get_incremental_emails envNoWatermark "u1" 100 s100).1.length = 1 ∧
    (get_incremental_emails envNoWatermark "u1" 100 s100).2.lastHistoryId = some 100 ∧
    (get_incremental_emails envNoWatermark "u1" 100 s100).2.cursorWrites = [] ∧
    get_current_history_id envNoWatermark = some 300 := by
  refine ⟨by decide, by decide, by decide, rfl⟩

/-- C5 (amended): whenever the delta response lacks an explicit new-cursor
field, `get_incremental_emails` performs no cursor write at all and the old
stored cursor stays in place — the stale cursor is silently kept rather than
treated as CursorTooOld. -/
theorem C5_missing_watermark_keeps_stale_cursor (env : Env) (uid : String) (l : Nat)
    (s : SyncState) (resp : HistResponse)
    (hl : env.historyList = .ok resp) (hh : resp.historyId = none) :
    (get_incremental_emails env uid l s).2.lastHistoryId = s.lastHistoryId ∧
    (get_incremental_emails env uid l s).2.cursorWrites = s.cursorWrites := by
  constructor
  · rw [get_incremental_emails_cursor]
    by_cases hs : env.serviceOk <;> simp [reportedWrite, hs, hl, hh]
  · rw [get_incremental_emails_writes]
    by_cases hs : env.serviceOk <;> simp [reportedWrite, hs, hl, hh]

/-- C5 witness: the amended theorem applied to the concrete
watermark-less delta. -/
theorem C5_witness :
    envNoWatermark.historyList = .ok { historyId := none, history := [⟨["m1"]⟩] } ∧
    (get_incremental_emails envNoWatermark "u1" 100 s100).2.lastHistoryId
      = s100.lastHistoryId :=
  ⟨rfl, (C5_missing_watermark_keeps_stale_cursor envNoWatermark "u1" 100 s100
    { historyId := none, history := [⟨["m1"]⟩] } rfl rfl).1⟩

/-- C6 (corrected, counterexample): a fresh message whose classification
fails (the Gemini request raises, so `classify_email` reports
`"Error: API request failed - .."`) is dropped: `process_and_save_gmail_message`
returns `none` and the store stays empty — the message is not persisted with
a fallback value. -/
theorem C6_counterexample :
    process_and_save_gmail_message
      { baseEnv with classify := fun _ _ => .requestError "timeout" }
      (mkMsg "m1" 150) "u1" [] = (none, []) ∧
    already_classified [] (mkMsg "m1" 150).id = false := by
  refine ⟨by decide, by decide⟩

/-- C6 (amended): a Summarizer failure is isolated — the clearly-marked
fallback summary is substituted and the message is still persisted — but a
Classifier failure is not: the message is skipped without being persisted
(though the batch is not aborted, since the skip is just a `none` result). -/
theorem C6_summarizer_isolated_classifier_drops (env : Env) (msg : GmailMsg) (uid : String)
    (store : List EmailRecord)
    (habs : already_classified store msg.id = false) (hu : trimPy uid ≠ "") :
    (env.summarize (extract_email_body env.lib msg.payload) = .raised →
      startsWithPy (classify_email (env.classify
        ((findHeader msg.headers "subject").getD "(No Subject)")
        (extract_email_body env.lib msg.payload))) "Error:" = false →
      ∃ r store', process_and_save_gmail_message env msg uid store = (some r, store') ∧
        r.summary = get_fallback_summary env.lib (extract_email_body env.lib msg.payload) ∧
        store' = r :: store) ∧
    (startsWithPy (classify_email (env.classify
        ((findHeader msg.headers "subject").getD "(No Subject)")
        (extract_email_body env.lib msg.payload))) "Error:" = true →
      process_and_save_gmail_message env msg uid store = (none, store)) := by
  constructor
  · intro hsum hclass
    simp only [process_and_save_gmail_message, save_email, habs, hclass, hsum,
      Bool.false_eq_true, if_false, if_neg hu]
    exact ⟨_, _, rfl, rfl, rfl⟩
  · intro hclass
    simp [process_and_save_gmail_message, habs, hclass]

/-- C6 witness: the amended theorem applied to `baseEnv`, whose summarizer
always raises and whose classifier succeeds. -/
theorem C6_witness :
    ∃ r store',
      process_and_save_gmail_message baseEnv (mkMsg "m1" 150) "u1" [] = (some r, store') ∧
      r.summary = get_fallback_summary baseEnv.lib
        (extract_email_body baseEnv.lib (mkMsg "m1" 150).payload) ∧
      store' = r :: [] :=
  (C6_summarizer_isolated_classifier_drops baseEnv (mkMsg "m1" 150) "u1" []
    (by decide) (by decide)).1 rfl (by decide)

/-- With a working cursor store, the regular sync never raises: every
internal failure is either caught inside `get_latest_emails` or reported as
a value, so `fetch_and_process_new_emails` returns normally. -/
theorem fetch_and_process_total (env : Env) (uid : String) (m : Nat) (s : SyncState)
    (hdb : env.cursorReadOk = true) :
    ∃ n s', fetch_and_process_new_emails env uid m s = (.ok n, s') := by
  unfold fetch_and_process_new_emails get_user_history_id
  simp only [hdb, if_true]
  split
  · exact ⟨_, _, rfl⟩
  · exact ⟨_, _, rfl⟩

/-- A request whose direct payload carries an email address but no
`historyId`, sending the handler down the unguarded regular-sync path. -/
def reqNoHid : WebhookRequest where
  jsonOk := true
  envelope := none
  direct := { emailAddress := some "alice@example.com", historyId := none }
  channelToken := none

/-- C7 (corrected, counterexample): with the cursor-store read raising
(database unavailable), a decoded request with a resolved user and no
`historyId` makes the unprotected `fetch_and_process_new_emails` call raise
out of the handler: the response is neither the success acknowledgement nor
an `{"error": ..}` JSON, contradicting the claim that the handler returns
success once decoded and resolved even if downstream processing fails. -/
theorem C7_counterexample :
    ({ baseEnv with cursorReadOk := false } : Env).resolveUser "alice@example.com"
      = some "u1" ∧
    (gmail_push_webhook { baseEnv with cursorReadOk := false } reqNoHid s100).1
      = .raised := by
  refine ⟨rfl, by decide⟩

/-- C7 (amended): provided the cursor-store reads succeed (so the unguarded
regular-sync fallback cannot raise), the handler returns the
`{"status": "success", "processed": n}` acknowledgement whenever the payload
decodes and the user resolves — even when everything downstream fails — and
returns the four non-2xx `{"error": ..}` responses exactly on a JSON parse
failure, an envelope decode failure, a missing email address, and an unknown
user. -/
theorem C7_response_contract (env : Env) (req : WebhookRequest) (s : SyncState)
    (hdb : env.cursorReadOk = true) :
    (req.jsonOk = false →
      gmail_push_webhook env req s = (.json 400 (.error "Invalid JSON payload"), s)) ∧
    (req.jsonOk = true → decodedData req = none →
      gmail_push_webhook env req s
        = (.json 400 (.error "Failed to decode Pub/Sub message"), s)) ∧
    (∀ d, req.jsonOk = true → decodedData req = some d → resolvedEmail req d = none →
      gmail_push_webhook env req s = (.json 400 (.error "No email address found"), s)) ∧
    (∀ d e, req.jsonOk = true → decodedData req = some d → resolvedEmail req d = some e →
      env.resolveUser e = none →
      gmail_push_webhook env req s = (.json 404 (.error "User not found"), s)) ∧
    (∀ d e u, req.jsonOk = true → decodedData req = some d → resolvedEmail req d = some e →
      env.resolveUser e = some u →
      ∃ n s', gmail_push_webhook env req s = (.json 200 (.success n), s')) := by
  refine ⟨?_, ?_, ?_, ?_, ?_⟩
  · intro hj
    simp [gmail_push_webhook, hj]
  · intro hj hd
    simp [gmail_push_webhook, hj, hd]
  · intro d hj hd he
    simp [gmail_push_webhook, hj, hd, he]
  · intro d e hj hd he hu
    simp [gmail_push_webhook, hj, hd, he, hu]
  · intro d e u hj hd he hu
    cases hw : d.historyId with
    | none =>
      obtain ⟨n, s', hfp⟩ := fetch_and_process_total env u 10 s hdb
      exact ⟨n, s', by simp [gmail_push_webhook, hj, hd, he, hu, hw, hfp]⟩
    | some whid =>
      cases hb : webhookSyncBody env u whid s with
      | mk r s1 =>
        cases r with
        | ok n => exact ⟨n, s1, by simp [gmail_push_webhook, hj, hd, he, hu, hw, hb]⟩
        | error err =>
          obtain ⟨n, s', hfp⟩ := fetch_and_process_total env u 10 s1 hdb
          exact ⟨n, s', by simp [gmail_push_webhook, hj, hd, he, hu, hw, hb, hfp]⟩

/-- C7 witness: the amended theorem's acknowledgement branch applied to the
concrete no-historyId request against a healthy database. -/
theorem C7_witness :
    ∃ n s', gmail_push_webhook baseEnv reqNoHid s100 = (.json 200 (.success n), s') :=
  (C7_response_contract baseEnv reqNoHid s100 rfl).2.2.2.2
    reqNoHid.direct "alice@example.com" "u1" rfl rfl rfl rfl

/-- The html/plain preference over a flat parts list, stated as a plain left
fold: a `text/html` part overwrites the first component, a `text/plain` part
the second, anything else is ignored. -/
def flatFold (lib : Lib) : String × String → List MimePart → String × String
  | hp, [] => hp
  | hp, MimePart.mk mt bd _ :: rest =>
    if mt = "text/html" then
      flatFold lib (clean_html lib (decode_email_body lib bd), hp.2) rest
    else if mt = "text/plain" then
      flatFold lib (hp.1, clean_plain_text lib (decode_email_body lib bd)) rest
    else flatFold lib hp rest

/-- On a flat parts list (no `multipart*` entries) the `find_parts` scan is
exactly the fold of `flatFold`, preferring the html accumulator. -/
theorem find_parts_flat (lib : Lib) :
    ∀ (l : List MimePart) (htmlAcc plainAcc : String),
      (∀ p ∈ l, startsWithPy p.mimeType "multipart" = false) →
      find_parts lib htmlAcc plainAcc l =
        (if (flatFold lib (htmlAcc, plainAcc) l).1 ≠ "" then (flatFold lib (htmlAcc, plainAcc) l).1
         else (flatFold lib (htmlAcc, plainAcc) l).2)
  | [], htmlAcc, plainAcc, _ => by simp [find_parts, flatFold]
  | MimePart.mk mt bd sub :: rest, htmlAcc, plainAcc, hflat => by
    have hmt : startsWithPy mt "multipart" = false := by
      simpa [MimePart.mimeType] using hflat (MimePart.mk mt bd sub) (List.mem_cons_self _ _)
    have hrest : ∀ p ∈ rest, startsWithPy p.mimeType "multipart" = false :=
      fun p hp => hflat p (List.mem_cons_of_mem _ hp)
    by_cases h1 : mt = "text/html"
    · simpa [find_parts, flatFold, h1] using
        find_parts_flat lib rest (clean_html lib (decode_email_body lib bd)) plainAcc hrest
    · by_cases h2 : mt = "text/plain"
      · simpa [find_parts, flatFold, h1, h2] using
          find_parts_flat lib rest htmlAcc (clean_plain_text lib (decode_email_body lib bd)) hrest
      · simpa [find_parts, flatFold, h1, h2, hmt] using
          find_parts_flat lib rest htmlAcc plainAcc hrest

/-- C8 (corrected, counterexample): a payload with no `parts` list and empty
body data makes `extract_email_body` return the empty string — not a
non-empty "no content" sentinel. -/
theorem C8_counterexample :
    extract_email_body trivLib { parts := none, bodyData := "" } = "" ∧
    ("" : String) ≠ "[No content found]" := by
  refine ⟨rfl, by decide⟩

/-- C8 (amended): `extract_email_body` is total and behaves as follows.
With no `parts` list it returns the decoded top-level body data directly
(hence `""`, not a sentinel, when that data is empty); with a `parts` list
whose scan finds nothing it returns the `"[No content found]"` sentinel; and
on a flat `parts` list it prefers the cleaned text of the last html part,
then the cleaned text of the last plain part, then the sentinel. -/
theorem C8_body_extraction (lib : Lib) :
    (∀ payload : MimePayload, payload.parts = none →
      extract_email_body lib payload = decode_email_body lib payload.bodyData) ∧
    (∀ (d : String) (l : List MimePart), find_parts lib "" "" l = "" →
      extract_email_body lib ⟨some l, d⟩ = "[No content found]") ∧
    (∀ (d : String) (l : List MimePart),
      (∀ p ∈ l, startsWithPy p.mimeType "multipart" = false) →
      extract_email_body lib ⟨some l, d⟩ =
        (if (flatFold lib ("", "") l).1 ≠ "" then (flatFold lib ("", "") l).1
         else if (flatFold lib ("", "") l).2 ≠ "" then (flatFold lib ("", "") l).2
         else "[No content found]")) := by
  refine ⟨?_, ?_, ?_⟩
  · intro payload hp
    cases payload with
    | mk parts bodyData => cases hp; rfl
  · intro d l hf
    simp [extract_email_body, hf]
  · intro d l hflat
    have hfp := find_parts_flat lib l "" "" hflat
    simp only [extract_email_body, hfp]
    by_cases h1 : (flatFold lib ("", "") l).1 = "" <;>
      by_cases h2 : (flatFold lib ("", "") l).2 = "" <;> simp [h1, h2]

/-- C8 witness: the flat-preference branch of the amended theorem applied to
a plain part followed by an html part — the html text wins. -/
theorem C8_witness :
    extract_email_body trivLib
        ⟨some [MimePart.mk "text/plain" "hi there" [], MimePart.mk "text/html" "yo there" []], ""⟩
      = (if (flatFold trivLib ("", "")
              [MimePart.mk "text/plain" "hi there" [], MimePart.mk "text/html" "yo there" []]).1 ≠ ""
         then (flatFold trivLib ("", "")
              [MimePart.mk "text/plain" "hi there" [], MimePart.mk "text/html" "yo there" []]).1
         else if (flatFold trivLib ("", "")
              [MimePart.mk "text/plain" "hi there" [], MimePart.mk "text/html" "yo there" []]).2 ≠ ""
         then (flatFold trivLib ("", "")
              [MimePart.mk "text/plain" "hi there" [], MimePart.mk "text/html" "yo there" []]).2
         else "[No content found]") :=
  (C8_body_extraction trivLib).2.2 ""
    [MimePart.mk "text/plain" "hi there" [], MimePart.mk "text/html" "yo there" []]
    (by decide)

/-- Against a no-change delta, the webhook's history branch reads the cursor
once and writes the reported watermark once, whatever state it starts from:
its behaviour does not depend on any lock or in-flight marker, because the
source keeps none. -/
theorem webhookSyncBody_noop_delta (env : Env) (uid : String) (whid h : Nat)
    (hs : env.serviceOk = true) (hdb : env.cursorReadOk = true)
    (hl : env.historyList = .ok { historyId := some h, history := [] }) :
    ∀ (t : SyncState) (x : Nat), t.lastHistoryId = some x →
      webhookSyncBody env uid whid t
        = (.ok 0, set_user_history_id { t with cursorReads := t.cursorReads + 1 } h) := by
  intro t x ht
  simp [webhookSyncBody, hs, get_user_history_id, hdb, ht, hl]

/-- A duplicate-delivery request: direct payload with an email address and
historyId 300. -/
def reqDup : WebhookRequest where
  jsonOk := true
  envelope := none
  direct := { emailAddress := some "alice@example.com", historyId := some 300 }
  channelToken := none

/-- The provider during the duplicate delivery: a no-change delta reporting
watermark 301. -/
def envDup : Env :=
  { baseEnv with historyList := .ok { historyId := some 301, history := [] } }

/-- C9 (corrected, counterexample): delivering the same webhook twice for
the same user (one admissible schedule of two concurrent deliveries — the
handler holds no lock state that could make any other schedule differ) runs
the full sync twice: the second invocation also reads the cursor and also
writes it, instead of returning immediately without touching it. -/
theorem C9_counterexample :
    (gmail_push_webhook envDup reqDup s100).1 = .json 200 (.success 0) ∧
    (gmail_push_webhook envDup reqDup (gmail_push_webhook envDup reqDup s100).2).1
      = .json 200 (.success 0) ∧
    (gmail_push_webhook envDup reqDup (gmail_push_webhook envDup reqDup s100).2).2.cursorWrites
      = [301, 301] ∧
    (gmail_push_webhook envDup reqDup (gmail_push_webhook envDup reqDup s100).2).2.cursorReads
      = 2 := by
  refine ⟨by decide, by decide, by decide, by decide⟩

/-- C9 (amended): the handler implements no per-user mutual exclusion — for
any decoded, resolved duplicate delivery with a stored cursor and a
no-change delta, running the handler a second time performs a second cursor
read and a second cursor write (both invocations are full executions). -/
theorem C9_no_per_user_lock (env : Env) (req : WebhookRequest) (s : SyncState)
    (d : WebhookData) (e uid : String) (whid h c : Nat)
    (hjson : req.jsonOk = true) (hd : decodedData req = some d)
    (he : resolvedEmail req d = some e) (hu : env.resolveUser e = some uid)
    (hw : d.historyId = some whid) (hs : env.serviceOk = true)
    (hdb : env.cursorReadOk = true)
    (hl : env.historyList = .ok { historyId := some h, history := [] })
    (hc : s.lastHistoryId = some c) :
    (gmail_push_webhook env req s).1 = .json 200 (.success 0) ∧
    (gmail_push_webhook env req (gmail_push_webhook env req s).2).1
      = .json 200 (.success 0) ∧
    (gmail_push_webhook env req (gmail_push_webhook env req s).2).2.cursorWrites
      = s.cursorWrites ++ [h, h] ∧
    (gmail_push_webhook env req (gmail_push_webhook env req s).2).2.cursorReads
      = s.cursorReads + 2 := by
  have h1 : gmail_push_webhook env req s
      = (.json 200 (.success 0),
         { lastHistoryId := some h, emails := s.emails,
           cursorWrites := s.cursorWrites ++ [h], cursorReads := s.cursorReads + 1 }) := by
    simp [gmail_push_webhook, hjson, hd, he, hu, hw,
      webhookSyncBody_noop_delta env uid whid h hs hdb hl s c hc, set_user_history_id]
  have h2 : gmail_push_webhook env req
        { lastHistoryId := some h, emails := s.emails,
          cursorWrites := s.cursorWrites ++ [h], cursorReads := s.cursorReads + 1 }
      = (.json 200 (.success 0),
         { lastHistoryId := some h, emails := s.emails,
           cursorWrites := (s.cursorWrites ++ [h]) ++ [h],
           cursorReads := s.cursorReads + 1 + 1 }) := by
    have hb2 := webhookSyncBody_noop_delta env uid whid h hs hdb hl
      { lastHistoryId := some h, emails := s.emails,
        cursorWrites := s.cursorWrites ++ [h], cursorReads := s.cursorReads + 1 } h rfl
    simp [gmail_push_webhook, hjson, hd, he, hu, hw, hb2, set_user_history_id]
  refine ⟨?_, ?_, ?_, ?_⟩ <;> simp [h1, h2]

/-- C9 witness: the amended theorem applied to the duplicate delivery
scenario. -/
theorem C9_witness :
    (gmail_push_webhook envDup reqDup s100).1 = .json 200 (.success 0) ∧
    (gmail_push_webhook envDup reqDup (gmail_push_webhook envDup reqDup s100).2).1
      = .json 200 (.success 0) ∧
    (gmail_push_webhook envDup reqDup (gmail_push_webhook envDup reqDup s100).2).2.cursorWrites
      = s100.cursorWrites ++ [301, 301] ∧
    (gmail_push_webhook envDup reqDup (gmail_push_webhook envDup reqDup s100).2).2.cursorReads
      = s100.cursorReads + 2 :=
  C9_no_per_user_lock envDup reqDup s100 reqDup.direct "alice@example.com" "u1"
    300 301 100 rfl rfl rfl rfl rfl rfl rfl rfl rfl

/-- The sentence-collecting loop grows its accumulator to at most two
entries. -/
theorem fallbackLoop_length : ∀ (l acc : List String), acc.length ≤ 1 →
    (fallbackLoop l acc).length ≤ 2
  | [], acc, h => by
    simpa [fallbackLoop] using le_trans h (by norm_num)
  | st :: rest, acc, h => by
    simp only [fallbackLoop]
    split
    · split
      · simpa using Nat.succ_le_succ h
      next h2 =>
        refine fallbackLoop_length rest _ ?_
        have h3 := Nat.lt_of_not_le h2
        simpa [Nat.lt_succ_iff] using h3
    · exact fallbackLoop_length rest acc h

/-- The fallback summary always has one or two entries. -/
theorem get_fallback_summary_length (lib : Lib) (text : String) :
    1 ≤ (get_fallback_summary lib text).length ∧
    (get_fallback_summary lib text).length ≤ 2 := by
  unfold get_fallback_summary
  by_cases h : fallbackLoop (splitOnCharPy text '.') [] = []
  · simp [h]
  · have hlen := fallbackLoop_length (splitOnCharPy text '.') [] (by simp)
    constructor
    · simp [h, Nat.one_le_iff_ne_zero, List.length_eq_zero]
    · simpa [h] using hlen

/-- C10 (confirmed): `summarize_to_bullets` is total (the embedding maps
every source `except` path to a value): the fallback summary is a non-empty
list of at most two sentences or one truncated string; every outcome yields
at most five bullets under the default `max_bullets = 5`; and every API
failure — the request raising, a non-200 status, a missing/empty candidates
list, an empty parts list — yields exactly `get_fallback_summary text`. -/
theorem C10_summarizer_totality (lib : Lib) (text : String) :
    1 ≤ (get_fallback_summary lib text).length ∧
    (get_fallback_summary lib text).length ≤ 2 ∧
    (∀ o : SummOutcome, (summarize_to_bullets lib o text).length ≤ 5) ∧
    (summarize_to_bullets lib .raised text = get_fallback_summary lib text) ∧
    (∀ st cands, st ≠ 200 →
      summarize_to_bullets lib (.response st cands) text = get_fallback_summary lib text) ∧
    (∀ st, summarize_to_bullets lib (.response st []) text = get_fallback_summary lib text) ∧
    (∀ st cands, summarize_to_bullets lib (.response st ([] :: cands)) text
      = get_fallback_summary lib text) := by
  obtain ⟨hf1, hf2⟩ := get_fallback_summary_length lib text
  have hfall5 : (get_fallback_summary lib text).length ≤ 5 := le_trans hf2 (by norm_num)
  refine ⟨hf1, hf2, ?_, rfl, ?_, ?_, ?_⟩
  · intro o
    cases o with
    | raised => exact hfall5
    | response st cands =>
      by_cases hst : st = 200
      · cases cands with
        | nil => simpa [summarize_to_bullets, hst] using hfall5
        | cons c cs =>
          cases c with
          | nil => simpa [summarize_to_bullets, hst] using hfall5
          | cons t ts =>
            simp only [summarize_to_bullets, hst]
            simp [List.length_take_le]
      · simpa [summarize_to_bullets, hst] using hfall5
  · intro st cands hst
    cases cands with
    | nil => simp [summarize_to_bullets, hst]
    | cons c cs => cases c <;> simp [summarize_to_bullets, hst]
  · intro st
    by_cases hst : st = 200 <;> simp [summarize_to_bullets, hst]
  · intro st cands
    by_cases hst : st = 200 <;> simp [summarize_to_bullets, hst]

/-- C10 witness: the totality theorem applied at a concrete failing outcome. -/
theorem C10_witness :
    summarize_to_bullets trivLib (.response 500 []) "hello there" =
      get_fallback_summary trivLib "hello there" :=
  (C10_summarizer_totality trivLib "hello there").2.2.2.2.1 500 [] (by decide)

end EmailSync
